import Mathlib

/-!
Verification of the etchmyrig storefront against its specification.

The repository is a web storefront with an in-browser 3D case viewer.
We shallowly embed the program fragments the claims are about:

* `Scene` — the three.js scene integration (`src/app/components/SceneImpl.tsx`,
  `src/app/components/ThreeScene.tsx`): mesh/panel classification, texture
  application, and model normalization.  Floating point coordinates are
  modelled as exact rationals.
* `ModelApi` — the model proxy endpoint (`src/app/api/model/route.ts`).
* `Admin` — the admin layout gate and dashboard deletion
  (admin layout / dashboard component).
* `Personalization` — the personalization page
  (`src/app/cases/[id]/personalization/[userId]/page.tsx`): file upload and
  the design/preview/checkout mode machine.

External services (Firebase storage, Firestore, the network `fetch`) are
modelled as explicit function parameters or key-value stores; browser side
effects (uploads, navigations) are returned as explicit effect lists.
-/

namespace Scene

/-- The `THREE.Vector3` type, with exact rational coordinates in place of floats. -/
structure Vec3 where
  x : ℚ
  y : ℚ
  z : ℚ
deriving DecidableEq, Repr

/-- Which panel a design targets: the `'back' | 'glass'` union type of
`SceneImpl.tsx`. -/
inductive PanelKind where
  | back
  | glass
deriving DecidableEq, Repr

/-- The material slot of a mesh: either an untouched original material
(identified by an id), or the design-texture material installed by
`applyDesignTexture` for a given panel type. -/
inductive Material where
  | original (id : Nat)
  | designTexture (panelType : PanelKind)
deriving DecidableEq, Repr

/-- The data of one mesh in the loaded glTF scene that the panel-selection
code inspects: its `name`, its `userData.isPanel` / `userData.panelType`
marks, the center and size of its world bounding box
(`new THREE.Box3().setFromObject(child)`), and its current material. -/
structure Mesh where
  name : String
  isPanel : Bool
  panelType : Option PanelKind
  bboxCenter : Vec3
  bboxSize : Vec3
  material : Material
deriving DecidableEq, Repr

/-- Helper `isFrontPanel` of `SceneImpl.tsx` (lines 51–54): the mesh is tall (y) and
wide (x) but thin in depth (z).  The `position` argument is unused, as in the
source. -/
def isFrontPanel (position size : Vec3) : Bool :=
  decide (size.y > (1 : ℚ)/10) && decide (size.x > (1 : ℚ)/10) &&
    decide (size.z < (1 : ℚ)/10)

/-- Membership test of the load-time traversal for the back-panel
collection (`SceneImpl.tsx` lines 177–179): bounding-box center `z < -0.5`
and `isFrontPanel`. -/
def inBackPanelCollection (mesh : Mesh) : Bool :=
  decide (mesh.bboxCenter.z < -((1 : ℚ)/2)) &&
    isFrontPanel mesh.bboxCenter mesh.bboxSize

/-- Membership test of the load-time traversal for the glass-panel
collection (`SceneImpl.tsx` lines 182–184): bounding-box center `z > 0.5`
and `isFrontPanel`. -/
def inGlassPanelCollection (mesh : Mesh) : Bool :=
  decide (mesh.bboxCenter.z > (1 : ℚ)/2) &&
    isFrontPanel mesh.bboxCenter mesh.bboxSize

/-- The back-panel collection built by the load-time traversal. -/
def backPanelCollection (meshes : List Mesh) : List Mesh :=
  meshes.filter inBackPanelCollection

/-- The glass-panel collection built by the load-time traversal. -/
def glassPanelCollection (meshes : List Mesh) : List Mesh :=
  meshes.filter inGlassPanelCollection

/-- Case-sensitive substring containment on character lists, the semantics of
JavaScript `String.prototype.includes`. -/
def charsContain : List Char → List Char → Bool
  | [], pat => pat.isEmpty
  | c :: rest, pat => pat.isPrefixOf (c :: rest) || charsContain rest pat

/-- JavaScript `s.includes(pattern)` (case-sensitive substring test). -/
def strIncludes (s pattern : String) : Bool :=
  charsContain s.data pattern.data

/-- The target-mesh selection of `applyDesignTexture`
(`SceneImpl.tsx` lines 384–428), translated directly from the source:
first try object names specific to the Corsair 4000D model, then the
`userData` panel marks, then the bounding-box position/size heuristic.
`List.find?` returns the first match, as the source's `Array.find` and its
`for … break` loop do. -/
def findTargetPanel (panelType : PanelKind) (allMeshes : List Mesh) :
    Option Mesh :=
  let byName : Option Mesh :=
    match panelType with
    | .back => allMeshes.find? fun mesh =>
        mesh.name == "Object_44001" || mesh.name == "BackPanel" ||
          strIncludes mesh.name "back"
    | .glass => allMeshes.find? fun mesh =>
        mesh.name == "Object_42" || mesh.name == "Object_43" ||
          mesh.name == "GlassPanel" || strIncludes mesh.name "glass"
  match byName with
  | some target => some target
  | none =>
    match allMeshes.find? fun mesh =>
        mesh.isPanel && decide (mesh.panelType = some panelType) with
    | some target => some target
    | none =>
      allMeshes.find? fun mesh =>
        match panelType with
        | .back => decide (mesh.bboxCenter.z < -((1 : ℚ)/2)) &&
            isFrontPanel mesh.bboxCenter mesh.bboxSize
        | .glass => decide (mesh.bboxCenter.z > (1 : ℚ)/2) &&
            isFrontPanel mesh.bboxCenter mesh.bboxSize

/-- Stage (1) of the claimed selection order: exact or substring name
matches. -/
def findPanelByName (panelType : PanelKind) (allMeshes : List Mesh) :
    Option Mesh :=
  match panelType with
  | .back => allMeshes.find? fun mesh =>
      mesh.name == "Object_44001" || mesh.name == "BackPanel" ||
        strIncludes mesh.name "back"
  | .glass => allMeshes.find? fun mesh =>
      mesh.name == "Object_42" || mesh.name == "Object_43" ||
        mesh.name == "GlassPanel" || strIncludes mesh.name "glass"

/-- Stage (2) of the claimed selection order: meshes previously marked via
`userData.isPanel` with matching `userData.panelType`. -/
def findPanelByUserData (panelType : PanelKind) (allMeshes : List Mesh) :
    Option Mesh :=
  allMeshes.find? fun mesh =>
    mesh.isPanel && decide (mesh.panelType = some panelType)

/-- Stage (3) of the claimed selection order: the bounding-box heuristic
(center z beyond ±0.5 and the mesh flat in z). -/
def findPanelByGeometry (panelType : PanelKind) (allMeshes : List Mesh) :
    Option Mesh :=
  allMeshes.find? fun mesh =>
    match panelType with
    | .back => decide (mesh.bboxCenter.z < -((1 : ℚ)/2)) &&
        isFrontPanel mesh.bboxCenter mesh.bboxSize
    | .glass => decide (mesh.bboxCenter.z > (1 : ℚ)/2) &&
        isFrontPanel mesh.bboxCenter mesh.bboxSize

/-- The claimed three-stage selection: stage (1), else stage (2), else
stage (3). -/
def findTargetPanelStaged (panelType : PanelKind) (allMeshes : List Mesh) :
    Option Mesh :=
  (findPanelByName panelType allMeshes).orElse fun _ =>
    (findPanelByUserData panelType allMeshes).orElse fun _ =>
      findPanelByGeometry panelType allMeshes

/-- Replace the material of the first occurrence of `target` in the scene's
mesh list (the mesh object `applyDesignTexture` mutates). -/
def setMaterialOnFirst (target : Mesh) (mat : Material) :
    List Mesh → List Mesh
  | [] => []
  | mesh :: rest =>
    if mesh = target then { mesh with material := mat } :: rest
    else mesh :: setMaterialOnFirst target mat rest

/-- The effect of `applyDesignTexture` on the scene's meshes: if a target
panel is found its material is replaced by the design-texture material,
otherwise the function returns without modifying any mesh material
(`SceneImpl.tsx` lines 430–433). -/
def applyDesignTexture (panelType : PanelKind) (allMeshes : List Mesh) :
    List Mesh :=
  match findTargetPanel panelType allMeshes with
  | none => allMeshes
  | some target =>
    setMaterialOnFirst target (.designTexture panelType) allMeshes

/-- The `THREE.Box3` type: an axis-aligned bounding box given by its two corner
points. -/
structure Box3 where
  min : Vec3
  max : Vec3
deriving DecidableEq, Repr

/-- Method `Box3.getCenter`: the midpoint of the two corners. -/
def getCenter (b : Box3) : Vec3 :=
  ⟨(b.min.x + b.max.x) / 2, (b.min.y + b.max.y) / 2, (b.min.z + b.max.z) / 2⟩

/-- Method `Box3.getSize`: componentwise extent of the box. -/
def getSize (b : Box3) : Vec3 :=
  ⟨b.max.x - b.min.x, b.max.y - b.min.y, b.max.z - b.min.z⟩

/-- The value `Math.max(size.x, size.y, size.z)` for a box's size. -/
def maxDimOf (b : Box3) : ℚ :=
  max (max (getSize b).x (getSize b).y) (getSize b).z

/-- The center-and-scale step of `SceneImpl.tsx` (lines 221–233): the
uniform scale `2 / maxDim` and the translation
`(-center.x * scale, -center.y * scale, -center.z * scale)`. -/
def centerAndScaleModel (b : Box3) : ℚ × Vec3 :=
  let modelCenter := getCenter b
  let scale := 2 / maxDimOf b
  (scale, ⟨-modelCenter.x * scale, -modelCenter.y * scale,
    -modelCenter.z * scale⟩)

/-- The center-and-scale step of `ThreeScene.tsx` (lines 89–98):
`model.position.copy(center).multiplyScalar(-scale)`. -/
def threeSceneCenterScale (b : Box3) : ℚ × Vec3 :=
  let center := getCenter b
  let scale := 2 / maxDimOf b
  (scale, ⟨center.x * -scale, center.y * -scale, center.z * -scale⟩)

/-- Transforming an axis-aligned box by a positive uniform scale followed by
a translation (what setting `scale` and `position` on the model's root group
does to its bounding box). -/
def transformBox (scale : ℚ) (pos : Vec3) (b : Box3) : Box3 :=
  ⟨⟨scale * b.min.x + pos.x, scale * b.min.y + pos.y, scale * b.min.z + pos.z⟩,
   ⟨scale * b.max.x + pos.x, scale * b.max.y + pos.y, scale * b.max.z + pos.z⟩⟩

/-- A concrete bounding box of size (2, 4, 1), for exercising the
normalization step on an explicit input. -/
def sampleBox : Box3 := ⟨⟨-1, 0, 3⟩, ⟨1, 4, 4⟩⟩

/-- A concrete mesh that no selection stage matches: unrelated name, no
`userData` panel marks, centered bounding box, not flat in z. -/
def sampleFrameMesh : Mesh :=
  { name := "Frame", isPanel := false, panelType := none
    bboxCenter := ⟨0, 0, 0⟩, bboxSize := ⟨1, 1, 1⟩
    material := .original 0 }

/-- A `{ x, y }` percentage position record. -/
structure Position2 where
  x : ℚ
  y : ℚ
deriving DecidableEq, Repr

/-- A `{ width, height }` percentage scale record. -/
structure Scale2 where
  width : ℚ
  height : ℚ
deriving DecidableEq, Repr

/-- The texture transform set by `applyDesignTexture`
(`SceneImpl.tsx` lines 457–461).  `center`, `texRepeat` and `offset` are the
exact rational values the source computes; the source sets
`texture.rotation = rotation * Math.PI / 180`, and we record the rational
coefficient of π of that angle, i.e. `rotationPiCoeff = rotation / 180`. -/
structure TextureTransform where
  center : ℚ × ℚ
  texRepeat : ℚ × ℚ
  rotationPiCoeff : ℚ
  offset : ℚ × ℚ
deriving DecidableEq, Repr

/-- The texture-transformation assignments of `applyDesignTexture`:
`center.set(0.5, 0.5)`, `repeat.set(scale.width/100, scale.height/100)`,
`rotation = rotation * Math.PI / 180` (stored as its coefficient of π),
`offset.set((position.x - 50)/100, (position.y - 50)/100)`. -/
def applyTextureTransformations (position : Position2) (scale : Scale2)
    (rotation : ℚ) : TextureTransform :=
  { center := (1/2, 1/2)
    texRepeat := (scale.width / 100, scale.height / 100)
    rotationPiCoeff := rotation / 180
    offset := ((position.x - 50) / 100, (position.y - 50) / 100) }

end Scene

namespace ModelApi

/-- A response body: either a text message or raw bytes. -/
inductive Body where
  | text (s : String)
  | bytes (b : List Nat)
deriving DecidableEq, Repr

/-- The observable parts of a `NextResponse`: status code, body, and
headers. -/
structure HttpResponse where
  status : Nat
  body : Body
  headers : List (String × String)
deriving DecidableEq, Repr

/-- The headers attached to a successful model proxy response
(`src/app/api/model/route.ts` lines 15–19). -/
def modelHeaders : List (String × String) :=
  [("Content-Type", "model/gltf-binary"),
   ("Access-Control-Allow-Origin", "*"),
   ("Cache-Control", "public, max-age=31536000, immutable")]

/-- The `GET` handler of `src/app/api/model/route.ts`.  `urlParam` is
`request.nextUrl.searchParams.get('url')` (`none` when the parameter is
absent); `fetchUrl` is the network: it maps a URL to the upstream response
body read with `arrayBuffer()`, or to an error when `fetch` (or the body
read) throws.  The source's guard is the JavaScript falsiness test
`if (!url)`, which fires both when the parameter is absent (`null`) and
when it is present but empty (`""`).  `NextResponse` defaults to status
200 when none is given. -/
def GET (urlParam : Option String)
    (fetchUrl : String → Except Unit (List Nat)) : HttpResponse :=
  match urlParam with
  | none => { status := 400, body := .text "Missing URL parameter", headers := [] }
  | some url =>
    if url = "" then
      { status := 400, body := .text "Missing URL parameter", headers := [] }
    else
      match fetchUrl url with
      | .ok buffer => { status := 200, body := .bytes buffer, headers := modelHeaders }
      | .error _ => { status := 500, body := .text "Error fetching model", headers := [] }

/-- Serving a sequence of requests: the route module holds no mutable state
between requests, so the server is the pointwise image of `GET` over the
request list. -/
def runServer (fetchUrl : String → Except Unit (List Nat))
    (requests : List (Option String)) : List HttpResponse :=
  requests.map fun r => GET r fetchUrl

end ModelApi

namespace Admin

/-- The signed-in Firebase user as seen by the admin layout (only the email
is inspected). -/
structure AdminUser where
  email : String
deriving DecidableEq, Repr

/-- What the admin layout renders. -/
inductive Rendered where
  | loader
  | nothing
  | children
deriving DecidableEq, Repr

/-- The hard-coded admin email of the admin layout. -/
def ADMIN_EMAIL : String := "alanpaccor@gmail.com"

/-- Whether the (possibly absent) signed-in user is the admin:
`user && user.email === ADMIN_EMAIL`. -/
def isAdminUser : Option AdminUser → Bool
  | none => false
  | some u => u.email == ADMIN_EMAIL

/-- The admin layout: given the auth `loading` flag and the signed-in user,
returns what is rendered and the navigations issued by its effect
(`router.push('/404')` exactly when loading has finished and the user is
missing or not the admin). -/
def AdminLayout (loading : Bool) (user : Option AdminUser) :
    Rendered × List String :=
  if loading then (.loader, [])
  else if isAdminUser user then (.children, [])
  else (.nothing, ["/404"])

/-- A product document in the `products` collection (the fields are not
inspected by deletion). -/
structure ProductDoc where
  name : String
  price : ℚ
deriving DecidableEq, Repr

/-- The `products` collection, as the list of (document id, document)
pairs; document ids are unique keys. -/
def ProductStore : Type := List (String × ProductDoc)

/-- Firestore `deleteDoc(doc(db, 'products', productId))`: remove the
document with the given id and no other. -/
def deleteDoc (store : ProductStore) (productId : String) : ProductStore :=
  store.filter fun entry => !(entry.1 == productId)

/-- The admin dashboard's `handleDelete`: given whether the
`window.confirm` dialog was accepted, the product id, the backing store and
the currently displayed product list, returns the new store and the new
displayed list (`fetchProducts` reloads the list from the store after a
deletion; a declined dialog changes nothing). -/
def handleDelete (confirmed : Bool) (productId : String)
    (store : ProductStore) (productsShown : ProductStore) :
    ProductStore × ProductStore :=
  if confirmed then
    let store2 := deleteDoc store productId
    (store2, store2)
  else (store, productsShown)

end Admin

namespace Personalization

/-- The signed-in user as seen by the personalization page (only `uid` is
used by the upload path). -/
structure AuthUser where
  uid : String
deriving DecidableEq, Repr

/-- A file picked in the upload input (only its `name` and identity are
observable to the handler). -/
structure UploadedFile where
  name : String
deriving DecidableEq, Repr

/-- One entry of `designData.panels` (`PanelDesign` in the page). -/
structure PanelDesign where
  panelType : Scene.PanelKind
  imageUrl : Option String
  position : Scene.Position2
  scale : Scene.Scale2
  rotation : ℚ
deriving DecidableEq, Repr

/-- The `DesignData` document of the page. -/
structure DesignData where
  userId : String
  caseId : String
  name : String
  panels : List PanelDesign
  createdAt : Nat
  updatedAt : Nat
deriving DecidableEq, Repr

/-- The page state touched by `handleFileUpload`: the uploaded-image
preview URL, the design document, the active panel, and the current image
adjustment controls. -/
structure PageState where
  uploadedImage : Option String
  designData : Option DesignData
  activePanel : Scene.PanelKind
  imagePosition : Scene.Position2
  imageScale : Scene.Scale2
  imageRotation : ℚ
deriving DecidableEq, Repr

/-- The storage path `designs/${user.uid}/${Date.now()}_${file.name}`. -/
def uploadPath (user : AuthUser) (file : UploadedFile) (now : Nat) : String :=
  "designs/" ++ user.uid ++ "/" ++ toString now ++ "_" ++ file.name

/-- Handler `handleFileUpload` of the personalization page (lines 172–217).
`file` is `event.target.files?.[0]`; `now` stands for `Date.now()`;
`uploadBytes` is Firebase storage: it maps a path and file to the download
URL of the stored object, or to an error when the upload throws.  Returns
the new page state and the list of (path, file) uploads performed.
`URL.createObjectURL(file)` is modelled as the local URL `"blob:" ++ name`;
on an upload error the page keeps that temporary preview URL and alerts. -/
def handleFileUpload (file : Option UploadedFile) (user : Option AuthUser)
    (now : Nat) (uploadBytes : String → UploadedFile → Except Unit String)
    (st : PageState) : PageState × List (String × UploadedFile) :=
  match file, user with
  | none, _ => (st, [])
  | _, none => (st, [])
  | some f, some u =>
    let tempUrl := "blob:" ++ f.name
    let path := uploadPath u f now
    match uploadBytes path f with
    | .error _ => ({ st with uploadedImage := some tempUrl }, [])
    | .ok downloadUrl =>
      let newDesign := st.designData.map fun d =>
        { d with
          panels := d.panels.map fun panel =>
            if panel.panelType = st.activePanel then
              { panel with
                imageUrl := some downloadUrl
                position := st.imagePosition
                scale := st.imageScale
                rotation := st.imageRotation }
            else panel
          updatedAt := now }
      ({ st with uploadedImage := some downloadUrl, designData := newDesign },
        [(path, f)])

/-- The page's `mode` state: `'design' | 'preview'`. -/
inductive Mode where
  | design
  | preview
deriving DecidableEq, Repr

/-- The mode machine of the page, abstracted to what C5 needs: the current
mode, whether a design has been successfully written to the `designs`
collection, and whether the checkout navigation has been reached. -/
structure PageFlow where
  mode : Mode
  designSaved : Bool
  checkoutReached : Bool
deriving DecidableEq, Repr

/-- The initial state: `useState<'design' | 'preview'>('design')`, nothing
saved, checkout not reached. -/
def initFlow : PageFlow := ⟨.design, false, false⟩

/-- The 'Proceed to Checkout' button is rendered only in the non-design
branch of the page, i.e. when `mode === 'preview'`. -/
def checkoutRendered (s : PageFlow) : Bool :=
  decide (s.mode = .preview)

/-- The user-visible events of the page's mode machine. -/
inductive FlowEvent where
  | saveDesignSuccess
  | saveDesignFailure
  | backToDesign
  | clickProceedToCheckout
deriving DecidableEq, Repr

/-- One step of the mode machine, from the page's handlers:
`handleSaveDesign` sets `mode` to `'preview'` only after the Firestore
write succeeds (its button exists only in design mode); a failed save
leaves the mode unchanged; the `backToDesign` event sets `mode` back to
`'design'`; clicking 'Proceed to Checkout' navigates only when the button
is rendered. -/
def stepFlow (s : PageFlow) : FlowEvent → PageFlow
  | .saveDesignSuccess =>
    if s.mode = .design then
      { s with designSaved := true, mode := .preview }
    else s
  | .saveDesignFailure => s
  | .backToDesign => { s with mode := .design }
  | .clickProceedToCheckout =>
    if checkoutRendered s then { s with checkoutReached := true } else s

/-- Running the mode machine from the initial state. -/
def runFlow (events : List FlowEvent) : PageFlow :=
  events.foldl stepFlow initFlow

/-- A concrete signed-in user. -/
def sampleUser : AuthUser := ⟨"user-1"⟩

/-- A concrete selected file. -/
def sampleFile : UploadedFile := ⟨"logo.png"⟩

/-- A concrete design document with the page's two default panels. -/
def sampleDesign : DesignData :=
  { userId := "user-1", caseId := "case-1", name := "4000D Design"
    panels :=
      [⟨.back, none, ⟨50, 50⟩, ⟨100, 100⟩, 0⟩,
       ⟨.glass, none, ⟨50, 50⟩, ⟨100, 100⟩, 0⟩]
    createdAt := 0, updatedAt := 0 }

/-- A concrete page state holding `sampleDesign`. -/
def sampleState : PageState :=
  { uploadedImage := none, designData := some sampleDesign
    activePanel := .back, imagePosition := ⟨50, 50⟩
    imageScale := ⟨100, 100⟩, imageRotation := 0 }

/-- A storage backend that accepts every upload and returns a fixed
download URL. -/
def sampleUpload : String → UploadedFile → Except Unit String :=
  fun _ _ => Except.ok "https://storage.example/img"

end Personalization

namespace Scene

theorem back_glass_exclusive (m : Mesh) :
    (inBackPanelCollection m && inGlassPanelCollection m) = false := by
  cases hb : inBackPanelCollection m with
  | false => rw [Bool.false_and]
  | true =>
    cases hg : inGlassPanelCollection m with
    | false => rw [Bool.and_false]
    | true =>
      exfalso
      simp only [inBackPanelCollection, Bool.and_eq_true,
        decide_eq_true_eq] at hb
      simp only [inGlassPanelCollection, Bool.and_eq_true,
        decide_eq_true_eq] at hg
      linarith [hb.1, hg.1]

/-- C8: the geometric panel classifier is mutually exclusive: no mesh can be
in both the back-panel collection (bounding-box center z < -0.5) and the
glass-panel collection (center z > 0.5) of the load-time traversal, so the
geometric pass never marks a mesh with both panel types. -/
theorem c8_geometric_classifier_mutually_exclusive (mesh : Mesh)
    (meshes : List Mesh) :
    (inBackPanelCollection mesh && inGlassPanelCollection mesh) = false
    ∧ (backPanelCollection meshes).all
        (fun m => !(inGlassPanelCollection m)) = true := by
  refine ⟨back_glass_exclusive mesh, ?_⟩
  rw [List.all_eq_true]
  intro m hm
  rw [backPanelCollection, List.mem_filter] at hm
  have h := back_glass_exclusive m
  rw [hm.2] at h
  simpa using h

end Scene

namespace ModelApi

theorem c3_model_proxy_total_counterexample :
    GET (some "") (fun _ => Except.ok [1, 2, 3]) =
      { status := 400, body := .text "Missing URL parameter", headers := [] }
    ∧ decide ((GET (some "") (fun _ => Except.ok [1, 2, 3])).status = 200)
        = false
    ∧ decide ((GET (some "") (fun _ => Except.ok [1, 2, 3])).body =
        Body.bytes [1, 2, 3]) = false := by
  refine ⟨rfl, ?_, ?_⟩ <;> decide

/-- C3 (amended): the model proxy endpoint's error behavior is total: an
absent — or present but empty — `url` parameter yields status 400 with body
`Missing URL parameter` (the source's guard is the falsiness test
`if (!url)`); for a non-empty `url` the upstream bytes are returned
unchanged with status 200 and Content-Type `model/gltf-binary`, and a
throwing fetch yields status 500 with body `Error fetching model`. -/
theorem c3_model_proxy_total (fetchUrl : String → Except Unit (List Nat))
    (url : String) :
    GET none fetchUrl =
      { status := 400, body := .text "Missing URL parameter", headers := [] }
    ∧ GET (some "") fetchUrl =
      { status := 400, body := .text "Missing URL parameter", headers := [] }
    ∧ (url ≠ "" →
        GET (some url) fetchUrl =
          (match fetchUrl url with
           | .ok buffer =>
               { status := 200, body := .bytes buffer,
                 headers := modelHeaders }
           | .error _ =>
               { status := 500, body := .text "Error fetching model",
                 headers := [] }))
    ∧ (url ≠ "" →
        (GET (some url) fetchUrl).headers.lookup "Content-Type" =
          if (fetchUrl url).isOk then some "model/gltf-binary" else none) := by
  refine ⟨rfl, by simp [GET], ?_, ?_⟩ <;>
    intro hne <;>
      cases h : fetchUrl url <;>
        simp [GET, modelHeaders, h, hne, Except.isOk, Except.toBool,
          List.lookup]

theorem c3_model_proxy_total_witness :
    ("https://m.example/case.glb" ≠ "")
    ∧ GET (some "https://m.example/case.glb") (fun _ => Except.ok [7, 8]) =
        { status := 200, body := .bytes [7, 8], headers := modelHeaders } := by
  have h := (c3_model_proxy_total (fun _ => Except.ok [7, 8])
    "https://m.example/case.glb").2.2.1 (by decide)
  exact ⟨by decide, h⟩

/-- C7: the proxy performs no caching and holds no state between requests:
the response to the final request of any request sequence is exactly
`GET` of that request, independent of the preceding requests. -/
theorem c7_no_caching_stateless (fetchUrl : String → Except Unit (List Nat))
    (reqs1 reqs2 : List (Option String)) (r : Option String) :
    (runServer fetchUrl (reqs1 ++ [r])).getLast? = some (GET r fetchUrl)
    ∧ (runServer fetchUrl (reqs1 ++ [r])).getLast? =
        (runServer fetchUrl (reqs2 ++ [r])).getLast? := by
  have key : ∀ reqs : List (Option String),
      (runServer fetchUrl (reqs ++ [r])).getLast? = some (GET r fetchUrl) := by
    intro reqs
    rw [runServer, List.map_append, List.map_singleton, List.getLast?_concat]
  exact ⟨key reqs1, by rw [key reqs1, key reqs2]⟩

end ModelApi

namespace Admin

/-- C4: only the hard-coded admin sees the admin panel: once loading has
finished, a missing or non-admin user makes the layout render nothing and
navigate to /404, and the children are rendered exactly when the signed-in
user's email equals the admin email. -/
theorem c4_admin_gate (u : Option AdminUser) :
    AdminLayout false u =
      (if isAdminUser u then (.children, []) else (.nothing, ["/404"]))
    ∧ decide ((AdminLayout false u).1 = Rendered.children) = isAdminUser u := by
  by_cases h : isAdminUser u = true <;> simp [AdminLayout, h]

theorem lookup_deleteDoc (store : ProductStore) (productId docId : String) :
    (deleteDoc store productId).lookup docId =
      if docId = productId then none else store.lookup docId := by
  induction store with
  | nil => simp [deleteDoc]
  | cons e t ih =>
    obtain ⟨k, v⟩ := e
    by_cases hk : k = productId
    · by_cases hd : docId = productId
      · simp_all [deleteDoc, List.filter_cons, List.lookup_cons]
        exact ih
      · simp_all [deleteDoc, List.filter_cons, List.lookup_cons,
          beq_false_of_ne hd]
    · by_cases hd2 : docId = k
      · simp_all [deleteDoc, List.filter_cons, List.lookup_cons,
          beq_false_of_ne hk]
      · simp_all [deleteDoc, List.filter_cons, List.lookup_cons,
          beq_false_of_ne hd2]

/-- C6: admin product deletion is confirmed and framed: declining the
confirmation dialog changes neither the store nor the displayed list;
accepting deletes exactly the document with the given id from the products
collection, leaves every other document unchanged, and refetches the
displayed product list from the store. -/
theorem c6_delete_confirmed_and_framed (productId : String)
    (store productsShown : ProductStore) :
    handleDelete false productId store productsShown = (store, productsShown)
    ∧ (∀ docId, ((handleDelete true productId store productsShown).1).lookup
        docId = if docId = productId then none else store.lookup docId)
    ∧ (handleDelete true productId store productsShown).2 =
        (handleDelete true productId store productsShown).1 := by
  refine ⟨rfl, ?_, rfl⟩
  intro docId
  exact lookup_deleteDoc store productId docId

end Admin

namespace Scene

/-- C10: design percentages map to texture coordinates by fixed exact
arithmetic: center (0.5, 0.5), repeat (width/100, height/100), rotation
r·π/180 radians, offset ((x-50)/100, (y-50)/100); the default inputs yield
the identity transform. -/
theorem c10_texture_transform_arithmetic (x y w h r : ℚ) :
    applyTextureTransformations ⟨x, y⟩ ⟨w, h⟩ r =
      { center := (1/2, 1/2), texRepeat := (w/100, h/100),
        rotationPiCoeff := r/180, offset := ((x - 50)/100, (y - 50)/100) }
    ∧ ((applyTextureTransformations ⟨x, y⟩ ⟨w, h⟩ r).rotationPiCoeff : ℝ) *
        Real.pi = (r : ℝ) * Real.pi / 180
    ∧ applyTextureTransformations ⟨50, 50⟩ ⟨100, 100⟩ 0 =
      { center := (1/2, 1/2), texRepeat := (1, 1), rotationPiCoeff := 0,
        offset := (0, 0) } := by
  refine ⟨rfl, ?_, ?_⟩
  · simp only [applyTextureTransformations]
    push_cast
    ring
  · simp only [applyTextureTransformations, TextureTransform.mk.injEq,
      Prod.mk.injEq]
    norm_num

theorem maxDim_transformBox (s : ℚ) (hs : 0 ≤ s) (p : Vec3) (b : Box3) :
    maxDimOf (transformBox s p b) = s * maxDimOf b := by
  unfold maxDimOf getSize transformBox
  simp only
  have e1 : s * b.max.x + p.x - (s * b.min.x + p.x) = s * (b.max.x - b.min.x) := by
    ring
  have e2 : s * b.max.y + p.y - (s * b.min.y + p.y) = s * (b.max.y - b.min.y) := by
    ring
  have e3 : s * b.max.z + p.z - (s * b.min.z + p.z) = s * (b.max.z - b.min.z) := by
    ring
  rw [e1, e2, e3, mul_max_of_nonneg _ _ hs, mul_max_of_nonneg _ _ hs]

/-- C9: loaded models are normalized to a canonical frame: with positive
maximum dimension, applying the uniform scale `2 / maxDim` and the
translation `-center * scale` (computed identically in `SceneImpl.tsx` and
`ThreeScene.tsx`) yields a bounding box centered at the origin whose
largest dimension equals 2. -/
theorem c9_model_normalization (b : Box3) (h : 0 < maxDimOf b) :
    threeSceneCenterScale b = centerAndScaleModel b
    ∧ getCenter (transformBox (centerAndScaleModel b).1
        (centerAndScaleModel b).2 b) = ⟨0, 0, 0⟩
    ∧ maxDimOf (transformBox (centerAndScaleModel b).1
        (centerAndScaleModel b).2 b) = 2 := by
  have hs : (0 : ℚ) ≤ 2 / maxDimOf b := by positivity
  refine ⟨?_, ?_, ?_⟩
  · simp only [threeSceneCenterScale, centerAndScaleModel, Prod.mk.injEq,
      Vec3.mk.injEq]
    refine ⟨trivial, by ring, by ring, by ring⟩
  · simp only [centerAndScaleModel, transformBox, getCenter, maxDimOf,
      getSize, Vec3.mk.injEq]
    refine ⟨by ring, by ring, by ring⟩
  · rw [show (centerAndScaleModel b).1 = 2 / maxDimOf b from rfl,
      maxDim_transformBox _ hs]
    field_simp

theorem c9_model_normalization_witness :
    0 < maxDimOf sampleBox
    ∧ maxDimOf (transformBox (centerAndScaleModel sampleBox).1
        (centerAndScaleModel sampleBox).2 sampleBox) = 2 := by
  have h : 0 < maxDimOf sampleBox := by
    norm_num [maxDimOf, getSize, sampleBox, max_def]
  exact ⟨h, (c9_model_normalization sampleBox h).2.2⟩

/-- C2: panel identification is hard-coded name matching and bounding-box
heuristics: `applyDesignTexture` selects its target mesh by trying, in
order, the name matches, the `userData` panel marks, and the bounding-box
heuristic; if all three stages fail it modifies no mesh material. -/
theorem c2_panel_selection_order (panelType : PanelKind)
    (allMeshes : List Mesh) :
    findTargetPanel panelType allMeshes =
      findTargetPanelStaged panelType allMeshes
    ∧ (findTargetPanel panelType allMeshes = none →
        applyDesignTexture panelType allMeshes = allMeshes) := by
  constructor
  · unfold findTargetPanel findTargetPanelStaged findPanelByName
      findPanelByUserData findPanelByGeometry
    cases panelType <;>
      · simp only
        cases allMeshes.find? _ with
        | some t => rfl
        | none =>
          cases allMeshes.find? _ with
          | some t => rfl
          | none => rfl
  · intro h
    simp [applyDesignTexture, h]

theorem c2_panel_selection_order_witness :
    findTargetPanel .back [sampleFrameMesh] = none
    ∧ applyDesignTexture .back [sampleFrameMesh] = [sampleFrameMesh] := by
  have h : findTargetPanel .back [sampleFrameMesh] = none := by
    norm_num [findTargetPanel, sampleFrameMesh, isFrontPanel, strIncludes,
      charsContain, List.find?, List.isPrefixOf]
    decide
  exact ⟨h, (c2_panel_selection_order .back [sampleFrameMesh]).2 h⟩

end Scene

namespace Personalization

theorem step_preserves_saved (s : PageFlow) (e : FlowEvent)
    (hmode : s.mode = Mode.preview → s.designSaved = true)
    (hco : s.checkoutReached = true → s.designSaved = true) :
    ((stepFlow s e).mode = Mode.preview → (stepFlow s e).designSaved = true)
    ∧ ((stepFlow s e).checkoutReached = true →
        (stepFlow s e).designSaved = true) := by
  obtain ⟨m, sv, co⟩ := s
  cases e <;> cases m <;> cases sv <;> cases co <;>
    simp_all [stepFlow, checkoutRendered]

theorem flow_invariant_step (events : List FlowEvent) (s : PageFlow)
    (hmode : s.mode = .preview → s.designSaved = true)
    (hco : s.checkoutReached = true → s.designSaved = true) :
    ((events.foldl stepFlow s).mode = .preview →
      (events.foldl stepFlow s).designSaved = true)
    ∧ ((events.foldl stepFlow s).checkoutReached = true →
      (events.foldl stepFlow s).designSaved = true) := by
  induction events generalizing s with
  | nil => exact ⟨hmode, hco⟩
  | cons e rest ih =>
    rw [List.foldl_cons]
    exact ih (stepFlow s e) (step_preserves_saved s e hmode hco).1
      (step_preserves_saved s e hmode hco).2

/-- C5: the preview happens before checkout: starting from the initial
`design` mode, whenever the checkout navigation has been reached the design
has been saved, and the `preview` mode itself is reachable only with a
saved design. -/
theorem c5_checkout_only_after_save (events : List FlowEvent) :
    ((runFlow events).checkoutReached = true →
      (runFlow events).designSaved = true)
    ∧ ((runFlow events).mode = Mode.preview →
      (runFlow events).designSaved = true) := by
  have h := flow_invariant_step events initFlow (by decide) (by decide)
  exact ⟨h.2, h.1⟩

theorem c5_checkout_only_after_save_witness :
    (runFlow [.saveDesignSuccess, .clickProceedToCheckout]).checkoutReached
      = true
    ∧ (runFlow [.saveDesignSuccess, .clickProceedToCheckout]).designSaved
      = true :=
  ⟨by decide,
    (c5_checkout_only_after_save
      [.saveDesignSuccess, .clickProceedToCheckout]).1 (by decide)⟩

/-- C1: uploading a design image requires a signed-in user: with no file or
no user the handler returns immediately, leaving the page state unchanged
and uploading nothing; with both present the file is uploaded to storage
under `designs/{user.uid}/` and, when a design document is loaded, the
active panel's `imageUrl` is set to the resulting download URL (which also
becomes the page's uploaded image). -/
theorem c1_upload_requires_signed_in_user (now : Nat)
    (uploadBytes : String → UploadedFile → Except Unit String)
    (st : PageState) (f : UploadedFile) (u : AuthUser) :
    (∀ userOpt, handleFileUpload none userOpt now uploadBytes st = (st, []))
    ∧ (∀ fileOpt, handleFileUpload fileOpt none now uploadBytes st = (st, []))
    ∧ ∀ downloadUrl,
        uploadBytes (uploadPath u f now) f = Except.ok downloadUrl →
        (handleFileUpload (some f) (some u) now uploadBytes st).2 =
            [(uploadPath u f now, f)]
        ∧ (∃ rest, uploadPath u f now = "designs/" ++ u.uid ++ "/" ++ rest)
        ∧ (handleFileUpload (some f) (some u) now uploadBytes st).1.uploadedImage
            = some downloadUrl
        ∧ ∀ d, st.designData = some d →
            ∃ d2, (handleFileUpload (some f) (some u) now uploadBytes
                st).1.designData = some d2
              ∧ ∀ p ∈ d2.panels, p.panelType = st.activePanel →
                  p.imageUrl = some downloadUrl := by
  refine ⟨?_, ?_, ?_⟩
  · intro userOpt
    cases userOpt <;> rfl
  · intro fileOpt
    cases fileOpt <;> rfl
  · intro downloadUrl hok
    refine ⟨?_, ⟨toString now ++ "_" ++ f.name, ?_⟩, ?_, ?_⟩
    · simp only [handleFileUpload, hok]
    · simp [uploadPath, String.append_assoc]
    · simp only [handleFileUpload, hok]
    · intro d hd
      simp only [handleFileUpload, hok, hd, Option.map_some]
      refine ⟨_, rfl, ?_⟩
      intro p hp hpt
      obtain ⟨q, hq, rfl⟩ := List.mem_map.1 hp
      by_cases hqa : q.panelType = st.activePanel
      · simp [hqa]
      · simp only [if_neg hqa] at hpt ⊢
        exact absurd hpt hqa

theorem c1_upload_requires_signed_in_user_witness :
    sampleUpload (uploadPath sampleUser sampleFile 5) sampleFile =
      Except.ok "https://storage.example/img"
    ∧ sampleState.designData = some sampleDesign
    ∧ (handleFileUpload (some sampleFile) (some sampleUser) 5 sampleUpload
        sampleState).1.uploadedImage = some "https://storage.example/img" := by
  have h := (c1_upload_requires_signed_in_user 5 sampleUpload sampleState
    sampleFile sampleUser).2.2 "https://storage.example/img" rfl
  exact ⟨rfl, rfl, h.2.2.1⟩

end Personalization
